import Mathlib

/-!
Verification of the `wf-live-previews` Wayfire plugin (`src/live-previews.cpp`)
against its natural-language specification.

The development shallowly embeds the plugin's state and its operations:

* `scaleGeometry` — the preview-size computation in `request_stream`
  (live-previews.cpp lines 113-123);
* `PluginState` and the state-transforming operations `request_stream`,
  `release_output`, `view_unmapped`, `destroy_output`, `post_hook`;
* the frame throttle (`drop_frame` / `frame_skip`, lines 238-244).

Modelling conventions:

* C++ `int` dimensions are modelled as `Nat` (the claims under study restrict
  attention to non-negative geometry); the frame counter `drop_frame` and the
  option `frame_skip` are modelled as `Int`, exactly as wide-enough signed
  integers (no overflow occurs in the reachable range of the claims).
* The C++ expression `vg.width * (max_dimension / float(vg.height))` followed
  by implicit conversion back to `int` is modelled as exact rational
  arithmetic truncated toward zero, i.e. `Nat` floor division
  `vg.width * max_dimension / vg.height` (for the non-negative inputs in
  scope truncation and floor coincide).  Device-scale values handled by
  `post_hook` are modelled as exact rationals `ℚ`.
* Host-side effects (wlroots output creation/testing/commit/destruction, hook
  registration, signal connection, view damage) are recorded in an explicit
  `HostAction` trace; host responses (view lookup, toplevel test, geometry, mode
  test results) are supplied by a `Host` record of oracles.
-/

/-- Pixel dimensions, mirroring `wf::dimensions_t` (width, height). -/
structure Dimensions where
  width : Nat
  height : Nat
deriving DecidableEq, Repr

/-- The preview-size computation of `request_stream`
(live-previews.cpp lines 113-123):

    if (vg.width < vg.height) {
        vg.width = vg.width * (max_dimension / float(vg.height));
        vg.height = max_dimension;
    } else {
        vg.height = vg.height * (max_dimension / float(vg.width));
        vg.width = max_dimension;
    }

The float multiply-then-truncate is modelled as exact `Nat` floor division
(see the module docstring). -/
def scaleGeometry (max_dimension : Nat) (vg : Dimensions) : Dimensions :=
  if vg.width < vg.height then
    { width := vg.width * max_dimension / vg.height, height := max_dimension }
  else
    { width := max_dimension, height := vg.height * max_dimension / vg.width }

/-- An integer strictly between `-n` and `n` has `natAbs` below `n`. -/
theorem natAbs_lt_of_bounds {a : ℤ} {n : Nat} (h1 : -(n : ℤ) < a) (h2 : a < n) :
    a.natAbs < n := by
  omega

/-- C1: for every source geometry `(w, h)` with `w > 0` and `h > 0`, the
preview size computed by `request_stream` has its longer side exactly equal to
`max_dimension` (`max preview_w preview_h = max_dimension`), the shorter side
is scaled proportionally under the deterministic truncation rule, so the
aspect ratio is preserved within ±1 pixel of rounding
(`|preview_w * h - preview_h * w| < max w h`, i.e. the cross ratio is off by
less than one pixel of the scaled side); in particular geometry 800×600 with
`max_dimension = 256` yields preview size 256×192. -/
theorem scaleGeometry_longer_side_exact_aspect_within_one
    (max_dimension w h : Nat) (hw : 0 < w) (hh : 0 < h) :
    max (scaleGeometry max_dimension ⟨w, h⟩).width
        (scaleGeometry max_dimension ⟨w, h⟩).height = max_dimension
    ∧ (((scaleGeometry max_dimension ⟨w, h⟩).width : ℤ) * h
        - ((scaleGeometry max_dimension ⟨w, h⟩).height : ℤ) * w).natAbs < max w h
    ∧ scaleGeometry 256 ⟨800, 600⟩ = ⟨256, 192⟩ := by
  refine ⟨?_, ?_, by decide⟩
  · unfold scaleGeometry
    by_cases hlt : w < h
    · simp only [hlt, if_pos]
      have hle : w * max_dimension / h ≤ max_dimension := by
        have h1 : w * max_dimension ≤ h * max_dimension :=
          Nat.mul_le_mul_right _ (Nat.le_of_lt hlt)
        calc w * max_dimension / h ≤ h * max_dimension / h := Nat.div_le_div_right h1
          _ = max_dimension := by rw [Nat.mul_div_cancel_left _ hh]
      simpa using Nat.max_eq_right hle
    · simp only [hlt, if_neg, not_false_iff]
      have hle : h * max_dimension / w ≤ max_dimension := by
        have h1 : h * max_dimension ≤ w * max_dimension :=
          Nat.mul_le_mul_right _ (Nat.le_of_not_lt hlt)
        calc h * max_dimension / w ≤ w * max_dimension / w := Nat.div_le_div_right h1
          _ = max_dimension := by rw [Nat.mul_div_cancel_left _ hw]
      simpa using Nat.max_eq_left hle
  · unfold scaleGeometry
    by_cases hlt : w < h
    · simp only [hlt, if_pos]
      have e : w * max_dimension / h * h + w * max_dimension % h = w * max_dimension :=
        Nat.div_add_mod' _ _
      have lt : w * max_dimension % h < h := Nat.mod_lt _ hh
      have hmax : h ≤ max w h := le_max_right w h
      have hpos : 0 < max w h := lt_of_lt_of_le hh hmax
      have e' : ((w * max_dimension / h : Nat) : ℤ) * h + ((w * max_dimension % h : Nat) : ℤ)
          = (w : ℤ) * max_dimension := by exact_mod_cast e
      refine natAbs_lt_of_bounds ?_ ?_
      · have lt' : ((w * max_dimension % h : Nat) : ℤ) < ((max w h : Nat) : ℤ) := by
          exact_mod_cast lt_of_lt_of_le lt hmax
        push_cast at e' lt' ⊢
        nlinarith [e', lt']
      · have hpos' : (0 : ℤ) < ((max w h : Nat) : ℤ) := by exact_mod_cast hpos
        have mnn : (0 : ℤ) ≤ ((w * max_dimension % h : Nat) : ℤ) := Int.natCast_nonneg _
        push_cast at e' hpos' mnn ⊢
        nlinarith [e', hpos', mnn]
    · simp only [hlt, if_neg, not_false_iff]
      have e : h * max_dimension / w * w + h * max_dimension % w = h * max_dimension :=
        Nat.div_add_mod' _ _
      have lt : h * max_dimension % w < w := Nat.mod_lt _ hw
      have hmax : w ≤ max w h := le_max_left w h
      have hpos : 0 < max w h := lt_of_lt_of_le hw hmax
      have e' : ((h * max_dimension / w : Nat) : ℤ) * w + ((h * max_dimension % w : Nat) : ℤ)
          = (h : ℤ) * max_dimension := by exact_mod_cast e
      refine natAbs_lt_of_bounds ?_ ?_
      · have hpos' : (0 : ℤ) < ((max w h : Nat) : ℤ) := by exact_mod_cast hpos
        have mnn : (0 : ℤ) ≤ ((h * max_dimension % w : Nat) : ℤ) := Int.natCast_nonneg _
        push_cast at e' hpos' mnn ⊢
        nlinarith [e', hpos', mnn]
      · have lt' : ((h * max_dimension % w : Nat) : ℤ) < ((max w h : Nat) : ℤ) := by
          exact_mod_cast lt_of_lt_of_le lt hmax
        push_cast at e' lt' ⊢
        nlinarith [e', lt']

/-- Witness for C1: the theorem applied at the concrete geometry 800×600 with
`max_dimension = 256`. -/
theorem scaleGeometry_longer_side_exact_aspect_within_one_witness :
    (0 < 800 ∧ 0 < 600)
    ∧ max (scaleGeometry 256 ⟨800, 600⟩).width (scaleGeometry 256 ⟨800, 600⟩).height = 256
    ∧ (((scaleGeometry 256 ⟨800, 600⟩).width : ℤ) * 600
        - ((scaleGeometry 256 ⟨800, 600⟩).height : ℤ) * 800).natAbs < max 800 600
    ∧ scaleGeometry 256 ⟨800, 600⟩ = ⟨256, 192⟩ :=
  ⟨⟨by decide, by decide⟩,
    scaleGeometry_longer_side_exact_aspect_within_one 256 800 600 (by decide) (by decide)⟩

/-- One frame-throttle step (live-previews.cpp lines 238-244):

    if (drop_frame++ >= int(frame_skip)) {
        drop_frame = 0;           // and run the capture/blit pipeline
    } else {
        return;                   // skip this frame
    }

Returns the new `drop_frame` value and whether this tick captures.
The comparison uses the pre-increment value; on capture the counter is
reset to 0, otherwise it keeps the incremented value. -/
def throttleStep (frame_skip drop_frame : Int) : Int × Bool :=
  if frame_skip ≤ drop_frame then (0, true) else (drop_frame + 1, false)

/-- The `drop_frame` counter after `n` consecutive frame ticks. -/
def throttleRun (frame_skip drop_frame : Int) : Nat → Int
  | 0 => drop_frame
  | n + 1 => (throttleStep frame_skip (throttleRun frame_skip drop_frame n)).1

/-- How many of the first `n` consecutive frame ticks capture. -/
def throttleCaptures (frame_skip drop_frame : Int) : Nat → Nat
  | 0 => 0
  | n + 1 =>
    throttleCaptures frame_skip drop_frame n
      + (if (throttleStep frame_skip (throttleRun frame_skip drop_frame n)).2 then 1 else 0)

theorem throttleRun_add (k c : Int) (m n : Nat) :
    throttleRun k c (m + n) = throttleRun k (throttleRun k c m) n := by
  induction n with
  | zero => rfl
  | succ n ih => simp [throttleRun, ih]

theorem throttleCaptures_add (k c : Int) (m n : Nat) :
    throttleCaptures k c (m + n)
      = throttleCaptures k c m + throttleCaptures k (throttleRun k c m) n := by
  induction n with
  | zero => rfl
  | succ n ih =>
    have hidx : m + (n + 1) = (m + n) + 1 := by omega
    rw [hidx, throttleCaptures, ih, throttleCaptures, throttleRun_add]
    ring

/-- While the counter stays strictly below `frame_skip`, ticks only increment
it and never capture. -/
theorem throttle_skip_phase (k c : Int) :
    ∀ n : Nat, (n : Int) ≤ k - c →
      throttleCaptures k c n = 0 ∧ throttleRun k c n = c + n := by
  intro n
  induction n with
  | zero => intro _; exact ⟨rfl, by simp [throttleRun]⟩
  | succ n ih =>
    intro hn
    have hn' : (n : Int) ≤ k - c := by push_cast at hn ⊢; omega
    obtain ⟨hcap, hrun⟩ := ih hn'
    have hlt : ¬ k ≤ c + n := by push_cast at hn; omega
    constructor
    · rw [throttleCaptures, hcap, hrun]
      simp [throttleStep, hlt]
    · rw [throttleRun, hrun]
      simp only [throttleStep, if_neg hlt]
      push_cast
      ring

/-- Counter invariant: starting from `drop_frame ∈ [0, frame_skip]`, the
counter stays in `[0, frame_skip]` after any number of ticks. -/
theorem throttleRun_invariant (k c : Int) (hk : 0 ≤ k) (h0 : 0 ≤ c) (h1 : c ≤ k) :
    ∀ n : Nat, 0 ≤ throttleRun k c n ∧ throttleRun k c n ≤ k := by
  intro n
  induction n with
  | zero => exact ⟨h0, h1⟩
  | succ n ih =>
    obtain ⟨ih0, ih1⟩ := ih
    rw [throttleRun]
    unfold throttleStep
    by_cases h : k ≤ throttleRun k c n
    · simp [h, hk]
    · simp only [if_neg h]
      omega

/-- Starting from any counter value `c ∈ [0, frame_skip]`, a window of
`frame_skip + 1` consecutive ticks contains exactly one capture, and the
counter returns to `c` afterwards. -/
theorem throttle_one_per_period (k c : Int) (hk : 0 ≤ k) (h0 : 0 ≤ c) (h1 : c ≤ k) :
    throttleCaptures k c (k.toNat + 1) = 1
      ∧ throttleRun k c (k.toNat + 1) = c := by
  have hsplit : k.toNat + 1 = (k - c).toNat + (1 + c.toNat) := by omega
  have hskip := throttle_skip_phase k c (k - c).toNat (by omega)
  have hrunk : throttleRun k c ((k - c).toNat) = k := by
    rw [hskip.2]; omega
  have hcapt1 : throttleCaptures k k 1 = 1 := by
    simp [throttleCaptures, throttleRun, throttleStep]
  have hrun1 : throttleRun k k 1 = 0 := by
    simp [throttleRun, throttleStep]
  have hskip2 := throttle_skip_phase k 0 c.toNat (by omega)
  constructor
  · rw [hsplit, throttleCaptures_add, hskip.1, hrunk, Nat.zero_add,
      throttleCaptures_add, hcapt1, hrun1, hskip2.1]
  · rw [hsplit, throttleRun_add, hrunk, throttleRun_add, hrun1, hskip2.2]
    omega

/-- Result of an IPC method call (`wf::ipc::json_ok` / `wf::ipc::json_error`). -/
inductive IpcResult where
  | ok
  | error (msg : String)
deriving DecidableEq, Repr

/-- Host-side effects performed by the plugin, recorded as an explicit trace.
`addHooks`/`remHooks` stand for the paired
`add_post(&post_hook); add_effect(&damage_hook)` /
`rem_post(&post_hook); rem_effect(&damage_hook)` calls, which the code always
performs together; the key is the output-pointer map key (`none` = null). -/
inductive HostAction where
  | testMode (d : Dimensions)
  | commitMode (d : Dimensions)
  | destroyOutput (o : Nat)
  | createBackend
  | createOutput (o : Nat) (d : Dimensions)
  | testFormat
  | commitFormat
  | addHooks (o : Option Nat)
  | remHooks (o : Option Nat)
  | connectUnmap (v : Nat)
  | connectPreRemove (o : Nat)
  | damageView (v : Nat)
deriving DecidableEq, Repr

/-- The mutable fields of `live_previews_plugin`.  Views and outputs are
identified by `Nat` ids; `Option` fields model nullable pointers.
`hooks_set` models the `std::map<wf::output_t*, bool>` as a total function
with default `false` (`operator[]` default-inserts `false`), keyed by the
output pointer, which may be null (`none`).
`view_unmapped_conn` / `output_pre_remove_conn` model whether the
corresponding `wf::signal::connection_t` objects are currently connected. -/
structure PluginState where
  current_preview : Option Nat
  wo : Option Nat
  current_size : Dimensions
  hooks_set : Option Nat → Bool
  drop_frame : Int
  instance_manager : Option Nat
  view_unmapped_conn : Bool
  output_pre_remove_conn : Bool
  headless_backend : Bool

/-- Host oracles consumed by `request_stream`: view lookup
(`wf::ipc::find_view_by_id`), toplevel test (`wf::toplevel_cast`), window
geometry (`get_geometry`), the result of `wlr_output_test_state` for a
custom-mode change, the result of `wlr_output_test_state` for the render
format of a freshly created output, and the id the headless backend assigns
to a new output (`wlr_headless_add_output`). -/
structure Host where
  findView : Nat → Bool
  isToplevel : Nat → Bool
  geometry : Nat → Dimensions
  modeTestOk : Dimensions → Bool
  formatTestOk : Bool
  freshOutputId : Nat

/-- `destroy_render_instance_manager` (lines 73-81): a no-op when no
manager exists, otherwise drops it. -/
def destroy_render_instance_manager (s : PluginState) : PluginState :=
  if s.instance_manager.isSome then { s with instance_manager := none } else s

/-- `create_render_instance_manager` (lines 83-93): a no-op when a manager
already exists, otherwise installs one rooted at the view. -/
def create_render_instance_manager (view : Nat) (s : PluginState) : PluginState :=
  if s.instance_manager.isSome then s else { s with instance_manager := some view }

/-- `destroy_output` (lines 300-332).  The layout's `"live-preview"` output is
identified with `wo` (the code keeps them in sync: `wo` is assigned at
creation and this function is the only place the output is removed).  The
seat-focus handover (lines 319-323) mutates only host seat state and is not
modelled.  The final `if (output == wo) wo = nullptr` always fires here since
`output = wo`. -/
def destroy_output (s : PluginState) : PluginState × List HostAction :=
  match s.wo with
  | none => (s, [])
  | some o =>
    let s1 := destroy_render_instance_manager s
    let s2 := { s1 with current_preview := none, view_unmapped_conn := false }
    let hadHooks := s2.hooks_set (some o)
    let s3 :=
      if hadHooks then
        { s2 with hooks_set := Function.update s2.hooks_set (some o) false }
      else s2
    let s4 := { s3 with output_pre_remove_conn := false, wo := none }
    (s4, (if hadHooks then [HostAction.remHooks (some o)] else []) ++ [HostAction.destroyOutput o])

/-- Hook installation guarded by the `hooks_set` map
(lines 155-160 and 188-193):

    if (!hooks_set[wo]) {
        wo->render->add_post(&post_hook);
        wo->render->add_effect(&damage_hook, wf::OUTPUT_EFFECT_PRE);
        hooks_set[wo] = true;
    } -/
def ensure_hooks (o : Nat) (s : PluginState) : PluginState × List HostAction :=
  if s.hooks_set (some o) then (s, [])
  else
    ({ s with hooks_set := Function.update s.hooks_set (some o) true },
      [HostAction.addHooks (some o)])

/-- The common tail of both `request_stream` success paths
(lines 161-166 and 195-199): connect `view_unmapped`, rebuild the render
instance manager for the view, set `current_preview`, damage the view. -/
def bind_view (view : Nat) (s : PluginState) : PluginState × List HostAction :=
  let s1 := { s with view_unmapped_conn := true }
  let s2 := create_render_instance_manager view (destroy_render_instance_manager s1)
  let s3 := { s2 with current_preview := some view }
  (s3, [HostAction.connectUnmap view, HostAction.damageView view])

/-- The mode-change block of `request_stream` (lines 126-152): when the
target size differs from `current_size`, record the new size; if a surface
exists, test the new mode against the host (`wlr_output_test_state`), commit
it on success, and on test failure call `destroy_output` instead. -/
def apply_mode_change (host : Host) (vg : Dimensions) (s : PluginState) :
    PluginState × List HostAction :=
  if vg ≠ s.current_size then
    let s1 := { s with current_size := vg }
    match s1.wo with
    | some _ =>
      if host.modeTestOk vg then
        (s1, [HostAction.testMode vg, HostAction.commitMode vg])
      else
        let d := destroy_output s1
        (d.1, HostAction.testMode vg :: d.2)
    | none => (s1, [])
  else (s, [])

/-- `request_stream` (lines 103-205).  Parameters `max_dimension` and
`frame_skip` are the two configuration options; `host` supplies the host
oracles.  Returns the new plugin state, the trace of host-side actions in
program order, and the IPC result. -/
def request_stream (host : Host) (max_dimension : Nat) (frame_skip : Int)
    (id : Nat) (s : PluginState) : PluginState × List HostAction × IpcResult :=
  if host.findView id then
    if host.isToplevel id then
      let vg := scaleGeometry max_dimension (host.geometry id)
      let s0 := { s with drop_frame := frame_skip }
      let resized := apply_mode_change host vg s0
      match resized.1.wo with
      | some o =>
        let eh := ensure_hooks o resized.1
        let bv := bind_view id eh.1
        (bv.1, resized.2 ++ eh.2 ++ bv.2, IpcResult.ok)
      | none =>
        let backend :=
          if resized.1.headless_backend then (resized.1, ([] : List HostAction))
          else ({ resized.1 with headless_backend := true }, [HostAction.createBackend])
        let o := host.freshOutputId
        let formatActs :=
          if host.formatTestOk then [HostAction.testFormat, HostAction.commitFormat]
          else [HostAction.testFormat]
        let s3 := { backend.1 with wo := some o }
        let eh := ensure_hooks o s3
        let s4 := { eh.1 with output_pre_remove_conn := true }
        let bv := bind_view id s4
        (bv.1, resized.2 ++ backend.2 ++ [HostAction.createOutput o vg] ++ formatActs
            ++ eh.2 ++ [HostAction.connectPreRemove o] ++ bv.2, IpcResult.ok)
    else (s, [], IpcResult.error "view is not a toplevel")
  else (s, [], IpcResult.error "no such view")

/-- `release_output` (lines 207-220): destroy the render instance manager,
disconnect `view_unmapped`, and remove the per-frame hooks for the current
`wo` key if present.  Always returns ok. -/
def release_output (s : PluginState) : PluginState × List HostAction × IpcResult :=
  let s1 := destroy_render_instance_manager s
  let s2 := { s1 with view_unmapped_conn := false }
  if s2.hooks_set s2.wo then
    ({ s2 with hooks_set := Function.update s2.hooks_set s2.wo false },
      [HostAction.remHooks s2.wo], IpcResult.ok)
  else (s2, [], IpcResult.ok)

/-- The `view_unmapped` signal handler (lines 281-298), invoked with the id of
the view that unmapped. -/
def view_unmapped (ev : Nat) (s : PluginState) : PluginState × List HostAction :=
  if s.current_preview ≠ some ev then (s, [])
  else
    let s1 := { s with view_unmapped_conn := false }
    let s2 := destroy_render_instance_manager s1
    let s3 := { s2 with current_preview := none }
    if s3.hooks_set s3.wo then
      ({ s3 with hooks_set := Function.update s3.hooks_set s3.wo false },
        [HostAction.remHooks s3.wo])
    else (s3, [])

/-- Scale bookkeeping of one capture inside `post_hook` (lines 246-262): the
source window's output scale while `take_snapshot` runs, the scale after
`post_hook` restores it, and the destination rectangle of the blit. -/
structure SnapshotEvent where
  scaleDuringSnapshot : ℚ
  scaleAfterSnapshot : ℚ
  blitDst : Dimensions
deriving DecidableEq, Repr

/-- `post_hook` (lines 231-263): no-op when no window is bound; otherwise
apply the frame throttle, and on an eligible frame perform the capture with
the temporary device scale `max_dimension / float(vg.width)` (line 252),
restoring `output_scale` afterwards (line 256).  `view_geometry` is the bound
window's current geometry, `output_scale` the window's output's scale. -/
def post_hook (max_dimension : Nat) (frame_skip : Int) (view_geometry : Dimensions)
    (output_scale : ℚ) (s : PluginState) : PluginState × Option SnapshotEvent :=
  match s.current_preview with
  | none => (s, none)
  | some _ =>
    let r := throttleStep frame_skip s.drop_frame
    let s1 := { s with drop_frame := r.1 }
    if r.2 then
      (s1, some { scaleDuringSnapshot := (max_dimension : ℚ) / (view_geometry.width : ℚ)
                , scaleAfterSnapshot := output_scale
                , blitDst := s1.current_size })
    else (s1, none)

/-- The plugin state after `n` consecutive `post_hook` frame ticks. -/
def post_hook_iter (max_dimension : Nat) (frame_skip : Int) (view_geometry : Dimensions)
    (output_scale : ℚ) (s : PluginState) : Nat → PluginState
  | 0 => s
  | n + 1 =>
    (post_hook max_dimension frame_skip view_geometry output_scale
      (post_hook_iter max_dimension frame_skip view_geometry output_scale s n)).1

/-- How many of the first `n` consecutive `post_hook` frame ticks ran the
capture/blit pipeline (produced a snapshot). -/
def post_hook_captures (max_dimension : Nat) (frame_skip : Int) (view_geometry : Dimensions)
    (output_scale : ℚ) (s : PluginState) : Nat → Nat
  | 0 => 0
  | n + 1 =>
    post_hook_captures max_dimension frame_skip view_geometry output_scale s n
      + (if (post_hook max_dimension frame_skip view_geometry output_scale
            (post_hook_iter max_dimension frame_skip view_geometry output_scale s n)).2.isSome
         then 1 else 0)

@[simp] theorem drim_instance_manager (s : PluginState) :
    (destroy_render_instance_manager s).instance_manager = none := by
  unfold destroy_render_instance_manager
  cases h : s.instance_manager <;> simp [h]

@[simp] theorem drim_current_preview (s : PluginState) :
    (destroy_render_instance_manager s).current_preview = s.current_preview := by
  unfold destroy_render_instance_manager; split <;> rfl

@[simp] theorem drim_wo (s : PluginState) :
    (destroy_render_instance_manager s).wo = s.wo := by
  unfold destroy_render_instance_manager; split <;> rfl

@[simp] theorem drim_current_size (s : PluginState) :
    (destroy_render_instance_manager s).current_size = s.current_size := by
  unfold destroy_render_instance_manager; split <;> rfl

@[simp] theorem drim_hooks_set (s : PluginState) :
    (destroy_render_instance_manager s).hooks_set = s.hooks_set := by
  unfold destroy_render_instance_manager; split <;> rfl

@[simp] theorem drim_drop_frame (s : PluginState) :
    (destroy_render_instance_manager s).drop_frame = s.drop_frame := by
  unfold destroy_render_instance_manager; split <;> rfl

@[simp] theorem drim_view_unmapped_conn (s : PluginState) :
    (destroy_render_instance_manager s).view_unmapped_conn = s.view_unmapped_conn := by
  unfold destroy_render_instance_manager; split <;> rfl

@[simp] theorem drim_output_pre_remove_conn (s : PluginState) :
    (destroy_render_instance_manager s).output_pre_remove_conn = s.output_pre_remove_conn := by
  unfold destroy_render_instance_manager; split <;> rfl

@[simp] theorem drim_headless_backend (s : PluginState) :
    (destroy_render_instance_manager s).headless_backend = s.headless_backend := by
  unfold destroy_render_instance_manager; split <;> rfl

/-- Destroy-then-create of the render instance manager (the code always pairs
them in `request_stream`) nets to installing a manager for the new view. -/
theorem rim_reset (v : Nat) (s : PluginState) :
    create_render_instance_manager v (destroy_render_instance_manager s)
      = { s with instance_manager := some v } := by
  unfold destroy_render_instance_manager create_render_instance_manager
  cases h : s.instance_manager <;> simp [h]

/-- `bind_view` in closed form. -/
theorem bind_view_eq (v : Nat) (s : PluginState) :
    bind_view v s
      = ({ s with
            view_unmapped_conn := true,
            instance_manager := some v,
            current_preview := some v },
          [HostAction.connectUnmap v, HostAction.damageView v]) := by
  unfold bind_view
  simp [rim_reset]

/-- The plugin state at plugin initialization (`init`): empty fields. -/
def initial_state : PluginState :=
  { current_preview := none, wo := none, current_size := ⟨0, 0⟩
  , hooks_set := fun _ => false, drop_frame := 0, instance_manager := none
  , view_unmapped_conn := false, output_pre_remove_conn := false
  , headless_backend := false }

/-- A representative streaming-state: view 1 bound, synthetic output 10 live
with hooks installed, preview size 256×192. -/
def bound_state : PluginState :=
  { current_preview := some 1, wo := some 10, current_size := ⟨256, 192⟩
  , hooks_set := fun k => k == some 10, drop_frame := 2, instance_manager := some 1
  , view_unmapped_conn := true, output_pre_remove_conn := true
  , headless_backend := true }

/-- A host with two resolvable toplevel views (1: 800×600, 2: 400×300), a
host that accepts every mode, and fresh output id 10. -/
def sample_host : Host :=
  { findView := fun v => v == 1 || v == 2
  , isToplevel := fun _ => true
  , geometry := fun v => if v == 1 then ⟨800, 600⟩ else ⟨400, 300⟩
  , modeTestOk := fun _ => true
  , formatTestOk := true
  , freshOutputId := 10 }

/-- C7: `release_output` always returns ok, and calling it twice consecutively
is idempotent — the second call leaves the session state exactly as the first
call left it. -/
theorem release_output_ok_and_idempotent (s : PluginState) :
    (release_output s).2.2 = IpcResult.ok
    ∧ (release_output (release_output s).1).1 = (release_output s).1
    ∧ (release_output (release_output s).1).2.1 = []
    ∧ (release_output (release_output s).1).2.2 = IpcResult.ok := by
  obtain ⟨cp, wo, cs, hs, df, im, vc, oc, hb⟩ := s
  refine ⟨?_, ?_, ?_, ?_⟩ <;>
    cases im <;> by_cases h : hs wo <;>
      simp [release_output, destroy_render_instance_manager, h, Function.update_same]

/-- C8 counterexample: in the streaming state `bound_state` (view 1 bound),
`release_output` leaves `current_preview = some 1` — the source window is
not cleared, contradicting the claim that it becomes absent. -/
theorem release_output_keeps_current_preview_cex :
    (release_output bound_state).1.current_preview = some 1
    ∧ (release_output bound_state).1.current_preview ≠ none := by
  constructor <;> decide

/-- C8 (amended): after `release_output` returns, invoked in any state, the
damage bridge is unbound (render instance manager destroyed), the unmap
subscription is disconnected, the per-frame hooks are removed for the current
output (so streaming stops — the Idle transition), and the call returns ok;
however `source_window` (`current_preview`) retains its last bound value and
is not cleared. -/
theorem release_output_unbinds_but_keeps_window (s : PluginState) :
    (release_output s).1.instance_manager = none
    ∧ (release_output s).1.view_unmapped_conn = false
    ∧ (release_output s).1.hooks_set (release_output s).1.wo = false
    ∧ (release_output s).1.wo = s.wo
    ∧ (release_output s).1.current_preview = s.current_preview
    ∧ (release_output s).2.2 = IpcResult.ok := by
  obtain ⟨cp, wo, cs, hs, df, im, vc, oc, hb⟩ := s
  cases im <;> by_cases h : hs wo <;>
    simp [release_output, destroy_render_instance_manager, h, Function.update_same]

@[simp] theorem eh_current_preview (o : Nat) (s : PluginState) :
    (ensure_hooks o s).1.current_preview = s.current_preview := by
  unfold ensure_hooks; split <;> rfl

@[simp] theorem eh_wo (o : Nat) (s : PluginState) :
    (ensure_hooks o s).1.wo = s.wo := by
  unfold ensure_hooks; split <;> rfl

@[simp] theorem eh_current_size (o : Nat) (s : PluginState) :
    (ensure_hooks o s).1.current_size = s.current_size := by
  unfold ensure_hooks; split <;> rfl

@[simp] theorem eh_drop_frame (o : Nat) (s : PluginState) :
    (ensure_hooks o s).1.drop_frame = s.drop_frame := by
  unfold ensure_hooks; split <;> rfl

@[simp] theorem eh_instance_manager (o : Nat) (s : PluginState) :
    (ensure_hooks o s).1.instance_manager = s.instance_manager := by
  unfold ensure_hooks; split <;> rfl

@[simp] theorem eh_view_unmapped_conn (o : Nat) (s : PluginState) :
    (ensure_hooks o s).1.view_unmapped_conn = s.view_unmapped_conn := by
  unfold ensure_hooks; split <;> rfl

@[simp] theorem eh_output_pre_remove_conn (o : Nat) (s : PluginState) :
    (ensure_hooks o s).1.output_pre_remove_conn = s.output_pre_remove_conn := by
  unfold ensure_hooks; split <;> rfl

@[simp] theorem eh_headless_backend (o : Nat) (s : PluginState) :
    (ensure_hooks o s).1.headless_backend = s.headless_backend := by
  unfold ensure_hooks; split <;> rfl

/-- After `ensure_hooks` the hooks flag for the output is set. -/
@[simp] theorem eh_hooks_set_self (o : Nat) (s : PluginState) :
    (ensure_hooks o s).1.hooks_set (some o) = true := by
  unfold ensure_hooks
  by_cases h : s.hooks_set (some o) <;> simp [h, Function.update_same]

/-- `ensure_hooks` emits no host actions beyond possibly `addHooks`. -/
theorem eh_acts (o : Nat) (s : PluginState) :
    (ensure_hooks o s).2 = [] ∨ (ensure_hooks o s).2 = [HostAction.addHooks (some o)] := by
  unfold ensure_hooks
  by_cases h : s.hooks_set (some o) <;> simp [h]

@[simp] theorem dout_wo (s : PluginState) : (destroy_output s).1.wo = none := by
  unfold destroy_output
  cases h : s.wo with
  | none => exact h
  | some o => by_cases hh : s.hooks_set (some o) <;> simp [hh]

@[simp] theorem dout_current_size (s : PluginState) :
    (destroy_output s).1.current_size = s.current_size := by
  unfold destroy_output
  cases h : s.wo with
  | none => rfl
  | some o => by_cases hh : s.hooks_set (some o) <;> simp [hh]

@[simp] theorem dout_drop_frame (s : PluginState) :
    (destroy_output s).1.drop_frame = s.drop_frame := by
  unfold destroy_output
  cases h : s.wo with
  | none => rfl
  | some o => by_cases hh : s.hooks_set (some o) <;> simp [hh]

@[simp] theorem dout_headless_backend (s : PluginState) :
    (destroy_output s).1.headless_backend = s.headless_backend := by
  unfold destroy_output
  cases h : s.wo with
  | none => rfl
  | some o => by_cases hh : s.hooks_set (some o) <;> simp [hh]

/-- When a surface exists, `destroy_output` emits `destroyOutput` (after the
hook removal, if any) and nothing else. -/
theorem dout_acts (s : PluginState) (o : Nat) (h : s.wo = some o) :
    (destroy_output s).2
      = (if s.hooks_set (some o) then [HostAction.remHooks (some o)] else [])
        ++ [HostAction.destroyOutput o] := by
  unfold destroy_output
  rw [h]
  by_cases hh : s.hooks_set (some o) <;> simp [hh]

@[simp] theorem amc_drop_frame (host : Host) (vg : Dimensions) (s : PluginState) :
    (apply_mode_change host vg s).1.drop_frame = s.drop_frame := by
  unfold apply_mode_change
  split
  · cases h : s.wo with
    | none => rfl
    | some o => split <;> simp
  · rfl

@[simp] theorem amc_headless_backend (host : Host) (vg : Dimensions) (s : PluginState) :
    (apply_mode_change host vg s).1.headless_backend = s.headless_backend := by
  unfold apply_mode_change
  split
  · cases h : s.wo with
    | none => rfl
    | some o => split <;> simp
  · rfl

/-- Whatever branch is taken, after `apply_mode_change` the session's
`current_size` is the target size. -/
@[simp] theorem amc_current_size (host : Host) (vg : Dimensions) (s : PluginState) :
    (apply_mode_change host vg s).1.current_size = vg := by
  unfold apply_mode_change
  split
  · cases h : s.wo with
    | none => rfl
    | some o => split <;> simp
  · next hne => simpa using (not_not.mp hne).symm

/-- Every `request_stream` call for a resolvable toplevel view succeeds and
leaves the session bound to that view: result ok, `current_preview` and the
render instance manager point at the view, `drop_frame = frame_skip`,
`current_size` is the computed preview size, and the unmap subscription is
connected. -/
theorem request_stream_success_fields (host : Host) (maxd : Nat) (fs : Int)
    (id : Nat) (s : PluginState)
    (h1 : host.findView id = true) (h2 : host.isToplevel id = true) :
    (request_stream host maxd fs id s).2.2 = IpcResult.ok
    ∧ (request_stream host maxd fs id s).1.current_preview = some id
    ∧ (request_stream host maxd fs id s).1.drop_frame = fs
    ∧ (request_stream host maxd fs id s).1.instance_manager = some id
    ∧ (request_stream host maxd fs id s).1.current_size
        = scaleGeometry maxd (host.geometry id)
    ∧ (request_stream host maxd fs id s).1.view_unmapped_conn = true := by
  unfold request_stream
  rw [if_pos h1, if_pos h2]
  cases hwo : (apply_mode_change host (scaleGeometry maxd (host.geometry id))
      { s with drop_frame := fs }).1.wo <;>
    split <;> by_cases hb : s.headless_backend = true <;> simp_all [bind_view_eq]

/-- C6 counterexample: with `frame_skip = 2`, a successful `request_stream`
call (view 1 on a fresh session) leaves `drop_frame = 2`, not `0` — the
counter is primed to `frame_skip`, not reset to 0. -/
theorem request_stream_drop_frame_not_zero_cex :
    (request_stream sample_host 256 2 1 initial_state).2.2 = IpcResult.ok
    ∧ (request_stream sample_host 256 2 1 initial_state).1.drop_frame = 2
    ∧ (request_stream sample_host 256 2 1 initial_state).1.drop_frame ≠ 0 := by
  refine ⟨by decide, by decide, by decide⟩

/-- C6 (amended): on every successful `request_stream` call, `drop_frame` is
set to `frame_skip` (line 125: `drop_frame = int(frame_skip);`) — not to 0 —
which primes the throttle to capture on the very next frame tick. -/
theorem request_stream_sets_drop_frame_to_frame_skip
    (host : Host) (maxd : Nat) (fs : Int) (id : Nat) (s : PluginState)
    (hok : (request_stream host maxd fs id s).2.2 = IpcResult.ok) :
    (request_stream host maxd fs id s).1.drop_frame = fs := by
  by_cases h1 : host.findView id = true
  · by_cases h2 : host.isToplevel id = true
    · exact (request_stream_success_fields host maxd fs id s h1 h2).2.2.1
    · unfold request_stream at hok
      rw [if_pos h1, if_neg h2] at hok
      exact absurd hok (by simp)
  · unfold request_stream at hok
    rw [if_neg h1] at hok
    exact absurd hok (by simp)

/-- Witness for C6 (amended): the concrete successful call of the
counterexample satisfies the amended claim with `frame_skip = 2`. -/
theorem request_stream_sets_drop_frame_to_frame_skip_witness :
    (request_stream sample_host 256 2 1 initial_state).2.2 = IpcResult.ok
    ∧ (request_stream sample_host 256 2 1 initial_state).1.drop_frame = 2 :=
  ⟨by decide, request_stream_sets_drop_frame_to_frame_skip sample_host 256 2 1
    initial_state (by decide)⟩

/-- A host with one resolvable toplevel view (id 3) of degenerate geometry
0×600. -/
def degenerate_host : Host :=
  { findView := fun v => v == 3
  , isToplevel := fun _ => true
  , geometry := fun _ => ⟨0, 600⟩
  , modeTestOk := fun _ => true
  , formatTestOk := true
  , freshOutputId := 7 }

/-- C9 counterexample: for a resolvable toplevel window with degenerate
geometry (w = 0), `request_stream` does not reject the request with any
error — it returns ok and even creates a synthetic output of degenerate
size 0×256. -/
theorem request_stream_degenerate_not_rejected_cex :
    (request_stream degenerate_host 256 0 3 initial_state).2.2 = IpcResult.ok
    ∧ HostAction.createOutput 7 ⟨0, 256⟩
        ∈ (request_stream degenerate_host 256 0 3 initial_state).2.1 := by
  refine ⟨by decide, by decide⟩

/-- C9 (amended): `request_stream` performs no degenerate-geometry
validation: for a resolvable toplevel window with `w = 0` (and `h > 0`) or
`h = 0` (and `w > 0`), the request succeeds (ok, no `InvalidGeometry`
error) and the committed preview size has a zero side. -/
theorem request_stream_degenerate_accepted
    (host : Host) (maxd : Nat) (fs : Int) (id : Nat) (s : PluginState)
    (h1 : host.findView id = true) (h2 : host.isToplevel id = true)
    (hz : ((host.geometry id).width = 0 ∧ 0 < (host.geometry id).height)
        ∨ (0 < (host.geometry id).width ∧ (host.geometry id).height = 0)) :
    (request_stream host maxd fs id s).2.2 = IpcResult.ok
    ∧ ((request_stream host maxd fs id s).1.current_size.width = 0
        ∨ (request_stream host maxd fs id s).1.current_size.height = 0) := by
  obtain ⟨hok, -, -, -, hcs, -⟩ := request_stream_success_fields host maxd fs id s h1 h2
  refine ⟨hok, ?_⟩
  rw [hcs]
  rcases hz with ⟨hw0, hh⟩ | ⟨hw, hh0⟩
  · left
    simp [scaleGeometry, hw0, hh]
  · right
    simp [scaleGeometry, hw, hh0]

/-- Witness for C9 (amended): the degenerate 0×600 window of
`degenerate_host`. -/
theorem request_stream_degenerate_accepted_witness :
    (request_stream degenerate_host 256 0 3 initial_state).2.2 = IpcResult.ok
    ∧ ((request_stream degenerate_host 256 0 3 initial_state).1.current_size.width = 0
        ∨ (request_stream degenerate_host 256 0 3 initial_state).1.current_size.height = 0) :=
  request_stream_degenerate_accepted degenerate_host 256 0 3 initial_state
    (by decide) (by decide) (Or.inl ⟨by decide, by decide⟩)

/-- C2 counterexample: in the streaming state `bound_state` (view 1 bound to
synthetic output 10), the `view_unmapped` handler firing for view 1 leaves
`wo = some 10` and emits only a hook-removal action — the synthetic surface
is not destroyed, contradicting the claimed `destroy(surface)` unwind. -/
theorem view_unmapped_no_destroy_cex :
    (view_unmapped 1 bound_state).1.wo = some 10
    ∧ (view_unmapped 1 bound_state).2 = [HostAction.remHooks (some 10)] := by
  refine ⟨by decide, by decide⟩

/-- C2 (amended): when `on_window_unmapped` fires with the bound source
window, the handler performs the unwind of `release()` plus clearing
`source_window` (damage bridge unbound, unmap subscription disconnected,
per-frame hooks removed, `current_preview` cleared) but does *not* destroy
the synthetic surface: `wo` is unchanged.  A subsequent `request_stream` for
a different resolvable toplevel window succeeds and binds that window with
no residual binding to the old one: `current_preview` and the render
instance manager point at the new window. -/
theorem view_unmapped_unwind_keeps_surface
    (s : PluginState) (v : Nat) (hb : s.current_preview = some v)
    (host : Host) (maxd : Nat) (fs : Int) (v2 : Nat)
    (h1 : host.findView v2 = true) (h2 : host.isToplevel v2 = true) :
    (view_unmapped v s).1.instance_manager = none
    ∧ (view_unmapped v s).1.current_preview = none
    ∧ (view_unmapped v s).1.view_unmapped_conn = false
    ∧ (view_unmapped v s).1.hooks_set ((view_unmapped v s).1.wo) = false
    ∧ (view_unmapped v s).1.wo = s.wo
    ∧ (request_stream host maxd fs v2 (view_unmapped v s).1).2.2 = IpcResult.ok
    ∧ (request_stream host maxd fs v2 (view_unmapped v s).1).1.current_preview = some v2
    ∧ (request_stream host maxd fs v2 (view_unmapped v s).1).1.instance_manager = some v2 := by
  have hreq := request_stream_success_fields host maxd fs v2 (view_unmapped v s).1 h1 h2
  have hcond : ¬(s.current_preview ≠ some v) := by simp [hb]
  refine ⟨?_, ?_, ?_, ?_, ?_, hreq.1, hreq.2.1, hreq.2.2.2.1⟩ <;>
  · unfold view_unmapped
    rw [if_neg hcond]
    by_cases hh : s.hooks_set s.wo <;> simp [hh, Function.update_same]

/-- Witness for C2 (amended): view 1 bound in `bound_state`, then a request
for view 2 of `sample_host`. -/
theorem view_unmapped_unwind_keeps_surface_witness :
    (view_unmapped 1 bound_state).1.instance_manager = none
    ∧ (view_unmapped 1 bound_state).1.current_preview = none
    ∧ (view_unmapped 1 bound_state).1.view_unmapped_conn = false
    ∧ (view_unmapped 1 bound_state).1.hooks_set ((view_unmapped 1 bound_state).1.wo) = false
    ∧ (view_unmapped 1 bound_state).1.wo = bound_state.wo
    ∧ (request_stream sample_host 256 2 2 (view_unmapped 1 bound_state).1).2.2 = IpcResult.ok
    ∧ (request_stream sample_host 256 2 2 (view_unmapped 1 bound_state).1).1.current_preview
        = some 2
    ∧ (request_stream sample_host 256 2 2 (view_unmapped 1 bound_state).1).1.instance_manager
        = some 2 :=
  view_unmapped_unwind_keeps_surface bound_state 1 (by decide) sample_host 256 2 2
    (by decide) (by decide)

/-- The full effect of `release_output` on the session fields, plus its
result: it unbinds the render instance manager, the unmap subscription and
the hooks for the current `wo` key, leaves every other field unchanged and
returns ok. -/
theorem release_output_fields (s : PluginState) :
    (release_output s).1.instance_manager = none
    ∧ (release_output s).1.view_unmapped_conn = false
    ∧ (release_output s).1.hooks_set ((release_output s).1.wo) = false
    ∧ (release_output s).1.wo = s.wo
    ∧ (release_output s).1.current_preview = s.current_preview
    ∧ (release_output s).1.current_size = s.current_size
    ∧ (release_output s).1.drop_frame = s.drop_frame
    ∧ (release_output s).1.headless_backend = s.headless_backend
    ∧ (release_output s).2.2 = IpcResult.ok := by
  obtain ⟨cp, wo, cs, hs, df, im, vc, oc, hb⟩ := s
  cases im <;> by_cases h : hs wo <;>
    simp [release_output, destroy_render_instance_manager, h, Function.update_same]

/-- C10: `release_output` leaves the synthetic output (`wo`), `current_size`,
`current_preview`'s last bound value, and the headless backend unchanged —
it only tears down the render instance manager, the unmap subscription and
the per-frame hooks — so a subsequent `request_stream` whose computed
preview size equals `current_size` reuses the existing surface: it returns
ok and performs no output creation, no mode test/commit and no output
destruction, leaving `wo` as before. -/
theorem release_output_warm_reuse
    (host : Host) (maxd : Nat) (fs : Int) (id : Nat) (s : PluginState) (o : Nat)
    (h1 : host.findView id = true) (h2 : host.isToplevel id = true)
    (hwo : s.wo = some o)
    (hsz : scaleGeometry maxd (host.geometry id) = s.current_size) :
    (release_output s).1.wo = s.wo
    ∧ (release_output s).1.current_size = s.current_size
    ∧ (release_output s).1.current_preview = s.current_preview
    ∧ (release_output s).1.headless_backend = s.headless_backend
    ∧ (release_output s).1.instance_manager = none
    ∧ (release_output s).1.view_unmapped_conn = false
    ∧ (release_output s).1.hooks_set ((release_output s).1.wo) = false
    ∧ (request_stream host maxd fs id (release_output s).1).2.2 = IpcResult.ok
    ∧ (request_stream host maxd fs id (release_output s).1).1.wo = some o
    ∧ (∀ d o2, HostAction.createOutput o2 d
        ∉ (request_stream host maxd fs id (release_output s).1).2.1)
    ∧ (∀ d, HostAction.testMode d
        ∉ (request_stream host maxd fs id (release_output s).1).2.1)
    ∧ (∀ d, HostAction.commitMode d
        ∉ (request_stream host maxd fs id (release_output s).1).2.1)
    ∧ (∀ o2, HostAction.destroyOutput o2
        ∉ (request_stream host maxd fs id (release_output s).1).2.1) := by
  obtain ⟨cp, wo, cs, hs, df, im, vc, oc, hb⟩ := s
  subst hwo
  by_cases hh : hs (some o) <;>
    simp [release_output, request_stream, apply_mode_change, ensure_hooks, bind_view_eq,
      hsz, h1, h2, hh, Function.update_same]

/-- Witness for C10: releasing `bound_state` and re-requesting view 1 (whose
preview size equals the current 256×192). -/
theorem release_output_warm_reuse_witness :
    (release_output bound_state).1.wo = bound_state.wo
    ∧ (release_output bound_state).1.current_size = bound_state.current_size
    ∧ (release_output bound_state).1.current_preview = bound_state.current_preview
    ∧ (release_output bound_state).1.headless_backend = bound_state.headless_backend
    ∧ (release_output bound_state).1.instance_manager = none
    ∧ (release_output bound_state).1.view_unmapped_conn = false
    ∧ (release_output bound_state).1.hooks_set ((release_output bound_state).1.wo) = false
    ∧ (request_stream sample_host 256 2 1 (release_output bound_state).1).2.2 = IpcResult.ok
    ∧ (request_stream sample_host 256 2 1 (release_output bound_state).1).1.wo = some 10 := by
  have h := release_output_warm_reuse sample_host 256 2 1 bound_state 10
    (by decide) (by decide) (by decide) (by decide)
  exact ⟨h.1, h.2.1, h.2.2.1, h.2.2.2.1, h.2.2.2.2.1, h.2.2.2.2.2.1,
    h.2.2.2.2.2.2.1, h.2.2.2.2.2.2.2.1, h.2.2.2.2.2.2.2.2.1⟩

/-- Membership in the `ensure_hooks` action trace, in closed form. -/
@[simp] theorem mem_eh_acts (a : HostAction) (o : Nat) (s : PluginState) :
    a ∈ (ensure_hooks o s).2
      ↔ a = HostAction.addHooks (some o) ∧ s.hooks_set (some o) = false := by
  unfold ensure_hooks
  by_cases h : s.hooks_set (some o) <;> simp [h]

/-- Membership in the `destroy_output` action trace when a surface exists, in
closed form. -/
theorem mem_dout_acts {s : PluginState} {o : Nat} (h : s.wo = some o) (a : HostAction) :
    a ∈ (destroy_output s).2
      ↔ (a = HostAction.remHooks (some o) ∧ s.hooks_set (some o) = true)
        ∨ a = HostAction.destroyOutput o := by
  rw [dout_acts s o h]
  by_cases hh : s.hooks_set (some o) <;> simp [hh]

/-- C4: when `request_stream` computes a target size different from
`current_size` while a surface exists and the host rejects the new mode, the
mode is tested but never committed (no `commitMode` action, for any size),
the surface is destroyed, and the same request falls through to creating a
fresh surface of the new size; the call still returns ok, so the mode
rejection is never surfaced to the caller. -/
theorem request_stream_mode_reject_recovery
    (host : Host) (maxd : Nat) (fs : Int) (id : Nat) (s : PluginState) (o : Nat)
    (h1 : host.findView id = true) (h2 : host.isToplevel id = true)
    (hwo : s.wo = some o)
    (hsz : scaleGeometry maxd (host.geometry id) ≠ s.current_size)
    (hmode : host.modeTestOk (scaleGeometry maxd (host.geometry id)) = false) :
    (request_stream host maxd fs id s).2.2 = IpcResult.ok
    ∧ HostAction.testMode (scaleGeometry maxd (host.geometry id))
        ∈ (request_stream host maxd fs id s).2.1
    ∧ (∀ d, HostAction.commitMode d ∉ (request_stream host maxd fs id s).2.1)
    ∧ HostAction.destroyOutput o ∈ (request_stream host maxd fs id s).2.1
    ∧ HostAction.createOutput host.freshOutputId (scaleGeometry maxd (host.geometry id))
        ∈ (request_stream host maxd fs id s).2.1
    ∧ (request_stream host maxd fs id s).1.current_size
        = scaleGeometry maxd (host.geometry id)
    ∧ (request_stream host maxd fs id s).1.wo = some host.freshOutputId := by
  obtain ⟨cp, wo, cs, hs, df, im, vc, oc, hb⟩ := s
  subst hwo
  cases hb <;> by_cases hf : host.formatTestOk <;>
    simp [request_stream, apply_mode_change, bind_view_eq, mem_dout_acts,
      hsz, h1, h2, hf, hmode]

/-- A host whose single toplevel view 1 has geometry 800×600 but which
rejects every mode change, with fresh output id 11. -/
def rejecting_host : Host :=
  { findView := fun v => v == 1
  , isToplevel := fun _ => true
  , geometry := fun _ => ⟨800, 600⟩
  , modeTestOk := fun _ => false
  , formatTestOk := true
  , freshOutputId := 11 }

/-- Witness for C4: `bound_state` (surface 10, size 256×192) asked for view 1
at `max_dimension = 128` (target 128×96) on a mode-rejecting host. -/
theorem request_stream_mode_reject_recovery_witness :
    (request_stream rejecting_host 128 2 1 bound_state).2.2 = IpcResult.ok
    ∧ HostAction.testMode (scaleGeometry 128 (rejecting_host.geometry 1))
        ∈ (request_stream rejecting_host 128 2 1 bound_state).2.1
    ∧ HostAction.commitMode (scaleGeometry 128 (rejecting_host.geometry 1))
        ∉ (request_stream rejecting_host 128 2 1 bound_state).2.1
    ∧ HostAction.destroyOutput 10 ∈ (request_stream rejecting_host 128 2 1 bound_state).2.1
    ∧ HostAction.createOutput 11 (scaleGeometry 128 (rejecting_host.geometry 1))
        ∈ (request_stream rejecting_host 128 2 1 bound_state).2.1
    ∧ (request_stream rejecting_host 128 2 1 bound_state).1.current_size
        = scaleGeometry 128 (rejecting_host.geometry 1)
    ∧ (request_stream rejecting_host 128 2 1 bound_state).1.wo = some 11 := by
  have h := request_stream_mode_reject_recovery rejecting_host 128 2 1 bound_state 10
    (by decide) (by decide) (by decide) (by decide) (by decide)
  exact ⟨h.1, h.2.1, h.2.2.1 _, h.2.2.2.1, h.2.2.2.2.1, h.2.2.2.2.2.1, h.2.2.2.2.2.2⟩

/-- C3 counterexample: for the portrait geometry 600×800 with
`max_dimension = 256`, the scale applied during the capture is
`256 / 600` (the code divides by `vg.width`, line 252), not
`256 / max(600, 800) = 256 / 800` as claimed. -/
theorem post_hook_scale_not_longer_side_cex :
    ((post_hook 256 0 ⟨600, 800⟩ 1 bound_state).2.map SnapshotEvent.scaleDuringSnapshot)
      ≠ some ((256 : ℚ) / ((max 600 800 : Nat) : ℚ)) := by
  have hmap : ((post_hook 256 0 ⟨600, 800⟩ 1 bound_state).2.map SnapshotEvent.scaleDuringSnapshot)
      = some (((256 : Nat) : ℚ) / ((600 : Nat) : ℚ)) := rfl
  rw [hmap, show (max 600 800 : Nat) = 800 from rfl]
  intro hcontra
  have h2 := Option.some.inj hcontra
  norm_num at h2

/-- C3 (amended): during each per-frame capture for a bound window of
geometry `(w, h)`, the device scale temporarily applied to the source
window's output equals `max_dimension / w` (the window's *width*, which
coincides with `max_dimension / max(w, h)` only when `w ≥ h`), and the
output's original scale is restored immediately after the snapshot. -/
theorem post_hook_scale_swap
    (maxd : Nat) (fs : Int) (g : Dimensions) (sc : ℚ) (s : PluginState)
    (ev : SnapshotEvent) (hev : (post_hook maxd fs g sc s).2 = some ev) :
    ev.scaleDuringSnapshot = (maxd : ℚ) / (g.width : ℚ)
    ∧ ev.scaleAfterSnapshot = sc := by
  unfold post_hook at hev
  cases hcp : s.current_preview with
  | none => rw [hcp] at hev; exact absurd hev (by simp)
  | some v =>
    rw [hcp] at hev
    by_cases hr : (throttleStep fs s.drop_frame).2 <;> simp [hr] at hev
    exact ⟨hev.symm ▸ rfl, hev.symm ▸ rfl⟩

/-- Witness for C3 (amended): a capture of the 800×600 window with original
output scale 3/2. -/
theorem post_hook_scale_swap_witness :
    (post_hook 256 0 ⟨800, 600⟩ (3 / 2 : ℚ) bound_state).2
      = some ⟨((256 : Nat) : ℚ) / ((800 : Nat) : ℚ), (3 / 2 : ℚ), ⟨256, 192⟩⟩
    ∧ ((⟨((256 : Nat) : ℚ) / ((800 : Nat) : ℚ), (3 / 2 : ℚ), ⟨256, 192⟩⟩ :
        SnapshotEvent)).scaleDuringSnapshot
        = ((256 : Nat) : ℚ) / (((⟨800, 600⟩ : Dimensions).width) : ℚ)
    ∧ ((⟨((256 : Nat) : ℚ) / ((800 : Nat) : ℚ), (3 / 2 : ℚ), ⟨256, 192⟩⟩ :
        SnapshotEvent)).scaleAfterSnapshot = (3 / 2 : ℚ) := by
  have hev : (post_hook 256 0 ⟨800, 600⟩ (3 / 2 : ℚ) bound_state).2
      = some ⟨((256 : Nat) : ℚ) / ((800 : Nat) : ℚ), (3 / 2 : ℚ), ⟨256, 192⟩⟩ := rfl
  have h := post_hook_scale_swap 256 0 ⟨800, 600⟩ (3 / 2 : ℚ) bound_state _ hev
  exact ⟨hev, h.1, h.2⟩

@[simp] theorem ph_current_preview (maxd : Nat) (fs : Int) (g : Dimensions) (sc : ℚ)
    (s : PluginState) :
    (post_hook maxd fs g sc s).1.current_preview = s.current_preview := by
  unfold post_hook
  cases h : s.current_preview with
  | none => simp [h]
  | some v => by_cases hr : (throttleStep fs s.drop_frame).2 <;> simp [h, hr]

/-- While a window is bound, the `post_hook` counter update is exactly the
throttle step. -/
theorem ph_drop_frame {s : PluginState} {v : Nat} (h : s.current_preview = some v)
    (maxd : Nat) (fs : Int) (g : Dimensions) (sc : ℚ) :
    (post_hook maxd fs g sc s).1.drop_frame = (throttleStep fs s.drop_frame).1 := by
  unfold post_hook
  rw [h]
  by_cases hr : (throttleStep fs s.drop_frame).2 <;> simp [hr]

/-- While a window is bound, `post_hook` captures exactly when the throttle
step fires. -/
theorem ph_capture {s : PluginState} {v : Nat} (h : s.current_preview = some v)
    (maxd : Nat) (fs : Int) (g : Dimensions) (sc : ℚ) :
    (post_hook maxd fs g sc s).2.isSome = (throttleStep fs s.drop_frame).2 := by
  unfold post_hook
  rw [h]
  by_cases hr : (throttleStep fs s.drop_frame).2 <;> simp [hr]

/-- Iterated `post_hook` with a bound window: the window stays bound, the
counter follows `throttleRun`, and the capture count follows
`throttleCaptures`. -/
theorem post_hook_iter_spec (maxd : Nat) (fs : Int) (g : Dimensions) (sc : ℚ)
    (s : PluginState) (v : Nat) (h : s.current_preview = some v) (n : Nat) :
    (post_hook_iter maxd fs g sc s n).current_preview = some v
    ∧ (post_hook_iter maxd fs g sc s n).drop_frame = throttleRun fs s.drop_frame n
    ∧ post_hook_captures maxd fs g sc s n = throttleCaptures fs s.drop_frame n := by
  induction n with
  | zero => exact ⟨h, rfl, rfl⟩
  | succ n ih =>
    obtain ⟨ihc, ihd, ihk⟩ := ih
    refine ⟨?_, ?_, ?_⟩
    · rw [post_hook_iter, ph_current_preview]
      exact ihc
    · rw [post_hook_iter, ph_drop_frame ihc, ihd, throttleRun]
    · rw [post_hook_captures, ihk, throttleCaptures, ph_capture ihc, ihd]

/-- C5: for every configured `frame_skip = k ≥ 0`, over any run of
consecutive frame ticks while a window is bound (counter in `[0, k]`, as
`request_stream` establishes by setting it to `k`), the throttle runs the
capture/blit pipeline exactly once per `k + 1` consecutive ticks: the
capture count over the window `[m, m + k + 1)` exceeds the count over
`[0, m)` by exactly 1 — the mechanism being that a tick with
`drop_frame ≥ frame_skip` resets the counter to 0 and captures, and any
other tick increments the counter and skips (`throttleStep`). -/
theorem post_hook_one_capture_per_period
    (maxd : Nat) (k : Int) (g : Dimensions) (sc : ℚ) (s : PluginState) (v : Nat) (m : Nat)
    (hb : s.current_preview = some v) (hk : 0 ≤ k)
    (h0 : 0 ≤ s.drop_frame) (h1 : s.drop_frame ≤ k) :
    post_hook_captures maxd k g sc s (m + (k.toNat + 1))
      = post_hook_captures maxd k g sc s m + 1 := by
  rw [(post_hook_iter_spec maxd k g sc s v hb (m + (k.toNat + 1))).2.2,
    (post_hook_iter_spec maxd k g sc s v hb m).2.2, throttleCaptures_add]
  have hinv := throttleRun_invariant k s.drop_frame hk h0 h1 m
  rw [(throttle_one_per_period k (throttleRun k s.drop_frame m) hk hinv.1 hinv.2).1]

/-- Witness for C5: `frame_skip = 2` on `bound_state` (window bound, counter
2): exactly one capture in the first window of 3 ticks. -/
theorem post_hook_one_capture_per_period_witness :
    bound_state.current_preview = some 1
    ∧ (0 : Int) ≤ 2
    ∧ (0 : Int) ≤ bound_state.drop_frame
    ∧ bound_state.drop_frame ≤ 2
    ∧ post_hook_captures 256 2 ⟨800, 600⟩ 1 bound_state (0 + ((2 : Int).toNat + 1))
        = post_hook_captures 256 2 ⟨800, 600⟩ 1 bound_state 0 + 1 :=
  ⟨by decide, by decide, by decide, by decide,
    post_hook_one_capture_per_period 256 2 ⟨800, 600⟩ 1 bound_state 1 0
      (by decide) (by decide) (by decide) (by decide)⟩
